import Mathlib

/-!
Verification of the four DEX front-run strategy evaluators
(`aggressive_front_run_strategy.py`, `predictive_front_run_strategy.py`,
`volatility_front_run_strategy.py`, `advanced_front_run_strategy.py`).

Each strategy's `execute` coroutine is embedded as a pure Lean function over
an environment of collaborator functions.  Python exceptions are made
explicit: every collaborator returns `Except PyExc _`, and `execute` returns
an `Except PyExc Bool` together with the list of collaborator calls it
performed (in program order), so that claims about which collaborators run
on which path can be stated and proved.

Numbers (Python floats and ints) are modelled as rationals; the one
irrational quantity, `np.std`, is modelled over the reals.  Expressions
inside `logger.debug` f-strings are evaluated eagerly by Python before the
logging call, so the two logging expressions that can raise are modelled as
control-flow points: `min(historical_prices)` in the volatility strategy
(ValueError on an empty sequence) and the `{volume:,.2f}` format in the
advanced strategy (TypeError when volume is None).  The remaining debug
logs only format values that always format successfully and are not
modelled.
-/

namespace DexFrontRun

/-- A Python exception escaping or being caught inside `execute`. -/
inductive PyExc where
  | zeroDivisionError
  | valueError
  | typeError
  | collaboratorError (msg : String)
deriving DecidableEq, Repr

instance {ε α : Type} [DecidableEq ε] [DecidableEq α] : DecidableEq (Except ε α) := fun a b =>
  match a, b with
  | .error e, .error f => if h : e = f then .isTrue (by rw [h]) else .isFalse (by simp [h])
  | .ok x, .ok y => if h : x = y then .isTrue (by rw [h]) else .isFalse (by simp [h])
  | .error _, .ok _ => .isFalse (by simp)
  | .ok _, .error _ => .isFalse (by simp)

/-- The target transaction dictionary.  The evaluators read only its
destination field and otherwise pass it around unchanged. -/
structure Tx where
  toAddr : String
  value : ℚ
deriving DecidableEq, Repr

/-- The decoded transaction returned by the validator; opaque to the core. -/
structure Decoded where
  raw : String
deriving DecidableEq, Repr

/-- The market-conditions mapping: three recognized boolean keys, each
possibly absent (`dict.get` with a default). -/
structure MarketConditions where
  bullish_trend : Option Bool
  high_volatility : Option Bool
  low_liquidity : Option Bool
deriving DecidableEq, Repr

/-- `np.mean` of a list of prices (exact rational value of the float mean). -/
def npMean (xs : List ℚ) : ℚ := xs.sum / (xs.length : ℚ)

/-- The population variance `np.std(xs) ** 2`: mean of squared deviations. -/
def npVariance (xs : List ℚ) : ℚ :=
  (xs.map (fun x => (x - npMean xs) ^ 2)).sum / (xs.length : ℚ)

/-- `np.std` of a list of prices: square root of the population variance. -/
noncomputable def npStd (xs : List ℚ) : ℝ := Real.sqrt ((npVariance xs : ℝ))

/-- The volatility argument built by the predictive strategy:
`np.std(historical_prices) / np.mean(historical_prices) if historical_prices else 0`. -/
noncomputable def pyVolatility (xs : List ℚ) : ℝ :=
  if xs = [] then 0 else npStd xs / ((npMean xs : ℚ) : ℝ)

/-! ## Aggressive strategy (`aggressive_front_run_strategy.py`) -/

/-- The collaborator functions and configuration injected into
`AggressiveFrontRunStrategy.__init__`. -/
structure AggressiveEnv where
  validate_transaction : Tx → String → ℚ → Except PyExc (Bool × Decoded × String)
  calculate_risk_score : Tx → String → ℚ → Except PyExc (ℚ × MarketConditions)
  front_run : Tx → Except PyExc Bool
  get_price_change_24h : String → Except PyExc ℚ
  min_value_eth : ℚ
  risk_score_threshold : ℚ

/-- One collaborator call made by the aggressive strategy, with its
arguments. -/
inductive ACall where
  | validate (tx : Tx) (minValue : ℚ)
  | get_price_change (sym : String)
  | calc_risk_score (tx : Tx) (sym : String) (priceChange : ℚ)
  | front_run (tx : Tx)
deriving DecidableEq, Repr

def ACall.isFrontRun : ACall → Bool
  | .front_run _ => true
  | _ => false

def ACall.isReducer : ACall → Bool
  | .calc_risk_score _ _ _ => true
  | _ => false

def ACall.isFetcher : ACall → Bool
  | .get_price_change _ => true
  | _ => false

/-- `AggressiveFrontRunStrategy.execute`.  No call is wrapped in a
try/except, so any collaborator failure propagates. -/
def AggressiveFrontRunStrategy.execute (env : AggressiveEnv) (target_tx : Tx) :
    Except PyExc Bool × List ACall :=
  match env.validate_transaction target_tx "front_run" env.min_value_eth with
  | .error e => (.error e, [.validate target_tx env.min_value_eth])
  | .ok (valid, _decoded_tx, token_symbol) =>
    if valid = false then
      (.ok false, [.validate target_tx env.min_value_eth])
    else
      match env.get_price_change_24h token_symbol with
      | .error e =>
        (.error e, [.validate target_tx env.min_value_eth, .get_price_change token_symbol])
      | .ok price_change_24h =>
        match env.calculate_risk_score target_tx token_symbol price_change_24h with
        | .error e =>
          (.error e, [.validate target_tx env.min_value_eth, .get_price_change token_symbol,
            .calc_risk_score target_tx token_symbol price_change_24h])
        | .ok (risk_score, _market_conditions) =>
          let trace := [ACall.validate target_tx env.min_value_eth,
            .get_price_change token_symbol,
            .calc_risk_score target_tx token_symbol price_change_24h]
          if env.risk_score_threshold ≤ risk_score then
            match env.front_run target_tx with
            | .error e => (.error e, trace ++ [.front_run target_tx])
            | .ok result => (.ok result, trace ++ [.front_run target_tx])
          else
            (.ok false, trace)

/-! ## Predictive strategy (`predictive_front_run_strategy.py`) -/

/-- The collaborator functions and configuration injected into
`PredictiveFrontRunStrategy.__init__`.  The opportunity-score reducer takes
the derived price change, the derived volatility ratio, the market
conditions, the current price and the historical prices, in the keyword
order of the source. -/
structure PredictiveEnv where
  validate_transaction : Tx → String → Except PyExc (Bool × Decoded × String)
  calculate_opportunity_score :
    ℚ → ℝ → MarketConditions → ℚ → List ℚ → Except PyExc ℚ
  front_run : Tx → Except PyExc Bool
  predict_price_movement : String → Except PyExc (Option ℚ)
  get_real_time_price : String → Except PyExc (Option ℚ)
  check_market_conditions : String → Except PyExc MarketConditions
  get_token_price_data : String → String → Nat → Except PyExc (List ℚ)
  opportunity_score_threshold : ℚ

/-- One collaborator call made by the predictive strategy. -/
inductive PCall where
  | validate (tx : Tx)
  | predict_price (sym : String)
  | get_price (sym : String)
  | check_market (addr : String)
  | get_price_data (sym : String) (kind : String) (timeframe : Nat)
  | calc_opportunity_score (priceChange : ℚ) (volatility : ℝ)
      (mc : MarketConditions) (currentPrice : ℚ) (historicalPrices : List ℚ)
  | front_run (tx : Tx)

def PCall.isFrontRun : PCall → Bool
  | .front_run _ => true
  | _ => false

def PCall.isReducer : PCall → Bool
  | .calc_opportunity_score _ _ _ _ _ => true
  | _ => false

def PCall.isFetcher : PCall → Bool
  | .predict_price _ => true
  | .get_price _ => true
  | .check_market _ => true
  | .get_price_data _ _ _ => true
  | _ => false

/-- `PredictiveFrontRunStrategy.execute`.  The four fetchers are gathered
with `return_exceptions=True`; any exception among the results, or a `None`
current or predicted price, degrades to `False`.  The division
`predicted_price / float(current_price)` in the reducer's keyword arguments
raises `ZeroDivisionError` when the current price is zero. -/
noncomputable def PredictiveFrontRunStrategy.execute (env : PredictiveEnv) (target_tx : Tx) :
    Except PyExc Bool × List PCall :=
  match env.validate_transaction target_tx "front_run" with
  | .error e => (.error e, [.validate target_tx])
  | .ok (valid, _decoded_tx, token_symbol) =>
    if valid = false then
      (.ok false, [.validate target_tx])
    else
      let rPredicted := env.predict_price_movement token_symbol
      let rCurrent := env.get_real_time_price token_symbol
      let rMarket := env.check_market_conditions target_tx.toAddr
      let rHistorical := env.get_token_price_data token_symbol "historical" 1
      let gathered : List PCall :=
        [.validate target_tx, .predict_price token_symbol, .get_price token_symbol,
         .check_market target_tx.toAddr, .get_price_data token_symbol "historical" 1]
      match rPredicted, rCurrent, rMarket, rHistorical with
      | .ok (some predicted_price), .ok (some current_price), .ok market_conditions,
          .ok historical_prices =>
        if current_price = 0 then
          (.error .zeroDivisionError, gathered)
        else
          let price_change := (predicted_price / current_price - 1) * 100
          let volatility := pyVolatility historical_prices
          match env.calculate_opportunity_score price_change volatility market_conditions
              current_price historical_prices with
          | .error e =>
            (.error e, gathered ++ [.calc_opportunity_score price_change volatility
              market_conditions current_price historical_prices])
          | .ok opportunity_score =>
            let trace := gathered ++ [PCall.calc_opportunity_score price_change volatility
              market_conditions current_price historical_prices]
            if env.opportunity_score_threshold ≤ opportunity_score then
              match env.front_run target_tx with
              | .error e => (.error e, trace ++ [.front_run target_tx])
              | .ok result => (.ok result, trace ++ [.front_run target_tx])
            else
              (.ok false, trace)
      | .ok _, .ok _, .ok _, .ok _ => (.ok false, gathered)
      | _, _, _, _ => (.ok false, gathered)

/-! ## Volatility strategy (`volatility_front_run_strategy.py`) -/

/-- The collaborator functions and configuration injected into
`VolatilityFrontRunStrategy.__init__`.  The volatility-score reducer takes
the historical prices, the (possibly `None`) current price, and the market
conditions; the source performs no null check on the gathered values. -/
structure VolatilityEnv where
  validate_transaction : Tx → String → Except PyExc (Bool × Decoded × String)
  calculate_volatility_score :
    List ℚ → Option ℚ → MarketConditions → Except PyExc ℚ
  front_run : Tx → Except PyExc Bool
  check_market_conditions : String → Except PyExc MarketConditions
  get_real_time_price : String → Except PyExc (Option ℚ)
  get_token_price_data : String → String → Nat → Except PyExc (List ℚ)
  volatility_score_threshold : ℚ

/-- One collaborator call made by the volatility strategy. -/
inductive VCall where
  | validate (tx : Tx)
  | check_market (addr : String)
  | get_price (sym : String)
  | get_price_data (sym : String) (kind : String) (timeframe : Nat)
  | calc_volatility_score (historicalPrices : List ℚ) (currentPrice : Option ℚ)
      (mc : MarketConditions)
  | front_run (tx : Tx)
deriving DecidableEq, Repr

def VCall.isFrontRun : VCall → Bool
  | .front_run _ => true
  | _ => false

def VCall.isReducer : VCall → Bool
  | .calc_volatility_score _ _ _ => true
  | _ => false

def VCall.isFetcher : VCall → Bool
  | .check_market _ => true
  | .get_price _ => true
  | .get_price_data _ _ _ => true
  | _ => false

/-- `VolatilityFrontRunStrategy.execute`.  After the reducer returns, the
analysis debug log evaluates `min(historical_prices)` and
`max(historical_prices)`, which raise `ValueError` when the gathered
historical-price sequence is empty — before the threshold gate is
reached. -/
def VolatilityFrontRunStrategy.execute (env : VolatilityEnv) (target_tx : Tx) :
    Except PyExc Bool × List VCall :=
  match env.validate_transaction target_tx "front_run" with
  | .error e => (.error e, [.validate target_tx])
  | .ok (valid, _decoded_tx, token_symbol) =>
    if valid = false then
      (.ok false, [.validate target_tx])
    else
      let rMarket := env.check_market_conditions target_tx.toAddr
      let rCurrent := env.get_real_time_price token_symbol
      let rHistorical := env.get_token_price_data token_symbol "historical" 1
      let gathered : List VCall :=
        [.validate target_tx, .check_market target_tx.toAddr, .get_price token_symbol,
         .get_price_data token_symbol "historical" 1]
      match rMarket, rCurrent, rHistorical with
      | .ok market_conditions, .ok current_price, .ok historical_prices =>
        match env.calculate_volatility_score historical_prices current_price
            market_conditions with
        | .error e =>
          (.error e, gathered ++ [.calc_volatility_score historical_prices current_price
            market_conditions])
        | .ok volatility_score =>
          let trace := gathered ++ [VCall.calc_volatility_score historical_prices
            current_price market_conditions]
          if historical_prices = [] then
            (.error .valueError, trace)
          else if env.volatility_score_threshold ≤ volatility_score then
            match env.front_run target_tx with
            | .error e => (.error e, trace ++ [.front_run target_tx])
            | .ok result => (.ok result, trace ++ [.front_run target_tx])
          else
            (.ok false, trace)
      | _, _, _ => (.ok false, gathered)

/-! ## Advanced strategy (`advanced_front_run_strategy.py`) -/

/-- The collaborator functions and configuration injected into
`AdvancedFrontRunStrategy.__init__`. -/
structure AdvancedEnv where
  validate_transaction : Tx → String → Except PyExc (Bool × Decoded × String)
  calculate_risk_score : Tx → String → ℚ → Except PyExc (ℚ × MarketConditions)
  front_run : Tx → Except PyExc Bool
  predict_price_movement : String → Except PyExc (Option ℚ)
  check_market_conditions : String → Except PyExc MarketConditions
  get_real_time_price : String → Except PyExc (Option ℚ)
  get_token_volume : String → Except PyExc (Option ℚ)
  risk_score_threshold : ℚ

/-- One collaborator call or observable log made by the advanced strategy.
The analysis debug log is recorded because it carries the derived boolean
market readings. -/
inductive AdCall where
  | validate (tx : Tx)
  | predict_price (sym : String)
  | check_market (addr : String)
  | get_price (sym : String)
  | get_volume (sym : String)
  | calc_risk_score (tx : Tx) (sym : String) (priceChange : ℚ)
  | log_analysis (priceIncrease : ℚ) (isBullish : Bool) (isVolatile : Bool)
      (hasLiquidity : Bool) (volume : ℚ)
  | front_run (tx : Tx)
deriving DecidableEq, Repr

def AdCall.isFrontRun : AdCall → Bool
  | .front_run _ => true
  | _ => false

def AdCall.isReducer : AdCall → Bool
  | .calc_risk_score _ _ _ => true
  | _ => false

def AdCall.isFetcher : AdCall → Bool
  | .predict_price _ => true
  | .check_market _ => true
  | .get_price _ => true
  | .get_volume _ => true
  | _ => false

/-- `AdvancedFrontRunStrategy.execute`.  The division by the current price
is unguarded; the boolean market readings are derived with conservative
`dict.get` defaults; the analysis debug log formats the 24h volume with a
numeric format specifier, raising `TypeError` when the gathered volume is
`None` — before the threshold gate is reached. -/
def AdvancedFrontRunStrategy.execute (env : AdvancedEnv) (target_tx : Tx) :
    Except PyExc Bool × List AdCall :=
  match env.validate_transaction target_tx "front_run" with
  | .error e => (.error e, [.validate target_tx])
  | .ok (valid, _decoded_tx, token_symbol) =>
    if valid = false then
      (.ok false, [.validate target_tx])
    else
      let rPredicted := env.predict_price_movement token_symbol
      let rMarket := env.check_market_conditions target_tx.toAddr
      let rCurrent := env.get_real_time_price token_symbol
      let rVolume := env.get_token_volume token_symbol
      let gathered : List AdCall :=
        [.validate target_tx, .predict_price token_symbol, .check_market target_tx.toAddr,
         .get_price token_symbol, .get_volume token_symbol]
      match rPredicted, rMarket, rCurrent, rVolume with
      | .ok (some predicted_price), .ok market_conditions, .ok (some current_price),
          .ok volume =>
        if current_price = 0 then
          (.error .zeroDivisionError, gathered)
        else
          let price_increase := (predicted_price / current_price - 1) * 100
          let is_bullish := market_conditions.bullish_trend.getD false
          let is_volatile := market_conditions.high_volatility.getD false
          let has_liquidity := !(market_conditions.low_liquidity.getD true)
          match env.calculate_risk_score target_tx token_symbol price_increase with
          | .error e =>
            (.error e, gathered ++ [.calc_risk_score target_tx token_symbol price_increase])
          | .ok (risk_score, _updated_market_conditions) =>
            let traceScored := gathered ++ [AdCall.calc_risk_score target_tx token_symbol
              price_increase]
            match volume with
            | none => (.error .typeError, traceScored)
            | some v =>
              let traceLogged := traceScored ++ [AdCall.log_analysis price_increase
                is_bullish is_volatile has_liquidity v]
              if env.risk_score_threshold ≤ risk_score then
                match env.front_run target_tx with
                | .error e => (.error e, traceLogged ++ [.front_run target_tx])
                | .ok result => (.ok result, traceLogged ++ [.front_run target_tx])
              else
                (.ok false, traceLogged)
      | .ok _, .ok _, .ok _, .ok _ => (.ok false, gathered)
      | _, _, _, _ => (.ok false, gathered)

/-! ## Concrete evaluation fixtures -/

/-- A sample target transaction. -/
def tx0 : Tx := { toAddr := "0xpool", value := 1 }

/-- A sample decoded transaction. -/
def decoded0 : Decoded := { raw := "swapExactTokensForTokens" }

/-- Market conditions with every recognized key present. -/
def mc0 : MarketConditions :=
  { bullish_trend := some true, high_volatility := some false, low_liquidity := some false }

/-- Market conditions with every recognized key absent. -/
def mcNone : MarketConditions :=
  { bullish_trend := none, high_volatility := none, low_liquidity := none }

/-- Market conditions missing only the `low_liquidity` key. -/
def mcNoLiquidity : MarketConditions :=
  { bullish_trend := some true, high_volatility := some true, low_liquidity := none }

/-- Aggressive wiring whose 24h price-change fetcher raises. -/
def aggFailEnv : AggressiveEnv where
  validate_transaction := fun _ _ _ => .ok (true, decoded0, "TKN")
  calculate_risk_score := fun _ _ _ => .ok (80, mc0)
  front_run := fun _ => .ok true
  get_price_change_24h := fun _ => .error (.collaboratorError "api down")
  min_value_eth := 1 / 100
  risk_score_threshold := 70

/-- A second aggressive wiring whose price-change fetcher raises. -/
def aggFailEnv2 : AggressiveEnv where
  validate_transaction := fun _ _ _ => .ok (true, decoded0, "TKN")
  calculate_risk_score := fun _ _ _ => .ok (80, mc0)
  front_run := fun _ => .ok true
  get_price_change_24h := fun _ => .error (.collaboratorError "feed offline")
  min_value_eth := 1 / 100
  risk_score_threshold := 70

/-- Aggressive wiring whose validator rejects the transaction. -/
def aggRejectEnv : AggressiveEnv where
  validate_transaction := fun _ _ _ => .ok (false, decoded0, "TKN")
  calculate_risk_score := fun _ _ _ => .ok (80, mc0)
  front_run := fun _ => .ok true
  get_price_change_24h := fun _ => .ok 5
  min_value_eth := 1 / 100
  risk_score_threshold := 70

/-- Aggressive wiring where everything succeeds and the score clears the
threshold. -/
def aggOkEnv : AggressiveEnv where
  validate_transaction := fun _ _ _ => .ok (true, decoded0, "TKN")
  calculate_risk_score := fun _ _ _ => .ok (80, mc0)
  front_run := fun _ => .ok true
  get_price_change_24h := fun _ => .ok 5
  min_value_eth := 1 / 100
  risk_score_threshold := 70

/-- Aggressive wiring where the score equals the threshold exactly. -/
def aggBoundaryEnv : AggressiveEnv where
  validate_transaction := fun _ _ _ => .ok (true, decoded0, "TKN")
  calculate_risk_score := fun _ _ _ => .ok (70, mc0)
  front_run := fun _ => .ok true
  get_price_change_24h := fun _ => .ok 5
  min_value_eth := 1 / 100
  risk_score_threshold := 70

/-- Predictive wiring whose validator rejects the transaction. -/
def predRejectEnv : PredictiveEnv where
  validate_transaction := fun _ _ => .ok (false, decoded0, "TKN")
  calculate_opportunity_score := fun _ _ _ _ _ => .ok 70
  front_run := fun _ => .ok true
  predict_price_movement := fun _ => .ok (some 11)
  get_real_time_price := fun _ => .ok (some 10)
  check_market_conditions := fun _ => .ok mc0
  get_token_price_data := fun _ _ _ => .ok [10]
  opportunity_score_threshold := 60

/-- Predictive wiring whose price-prediction fetcher raises. -/
def predFailEnv : PredictiveEnv where
  validate_transaction := fun _ _ => .ok (true, decoded0, "TKN")
  calculate_opportunity_score := fun _ _ _ _ _ => .ok 70
  front_run := fun _ => .ok true
  predict_price_movement := fun _ => .error (.collaboratorError "model timeout")
  get_real_time_price := fun _ => .ok (some 10)
  check_market_conditions := fun _ => .ok mc0
  get_token_price_data := fun _ _ _ => .ok [10]
  opportunity_score_threshold := 60

/-- Predictive wiring whose current-price fetcher succeeds with `None`. -/
def predNullEnv : PredictiveEnv where
  validate_transaction := fun _ _ => .ok (true, decoded0, "TKN")
  calculate_opportunity_score := fun _ _ _ _ _ => .ok 70
  front_run := fun _ => .ok true
  predict_price_movement := fun _ => .ok (some 11)
  get_real_time_price := fun _ => .ok none
  check_market_conditions := fun _ => .ok mc0
  get_token_price_data := fun _ _ _ => .ok [10]
  opportunity_score_threshold := 60

/-- Predictive wiring whose current-price fetcher succeeds with the value 0. -/
def predZeroEnv : PredictiveEnv where
  validate_transaction := fun _ _ => .ok (true, decoded0, "TKN")
  calculate_opportunity_score := fun _ _ _ _ _ => .ok 70
  front_run := fun _ => .ok true
  predict_price_movement := fun _ => .ok (some 1)
  get_real_time_price := fun _ => .ok (some 0)
  check_market_conditions := fun _ => .ok mc0
  get_token_price_data := fun _ _ _ => .ok [10]
  opportunity_score_threshold := 60

/-- The spec's Scenario C wiring: current price 10.0, predicted price 10.5,
historical prices [9.5, 9.8, 10.1, 9.9], reducer returning 70 against
threshold 60. -/
def predScenarioC : PredictiveEnv where
  validate_transaction := fun _ _ => .ok (true, decoded0, "TKN")
  calculate_opportunity_score := fun _ _ _ _ _ => .ok 70
  front_run := fun _ => .ok true
  predict_price_movement := fun _ => .ok (some (21 / 2))
  get_real_time_price := fun _ => .ok (some 10)
  check_market_conditions := fun _ => .ok mc0
  get_token_price_data := fun _ _ _ => .ok [19 / 2, 49 / 5, 101 / 10, 99 / 10]
  opportunity_score_threshold := 60

/-- Predictive wiring where the score equals the threshold exactly and the
historical series is empty (so the volatility argument is the literal 0). -/
def predBoundaryEnv : PredictiveEnv where
  validate_transaction := fun _ _ => .ok (true, decoded0, "TKN")
  calculate_opportunity_score := fun _ _ _ _ _ => .ok 60
  front_run := fun _ => .ok true
  predict_price_movement := fun _ => .ok (some 11)
  get_real_time_price := fun _ => .ok (some 10)
  check_market_conditions := fun _ => .ok mc0
  get_token_price_data := fun _ _ _ => .ok []
  opportunity_score_threshold := 60

/-- Volatility wiring whose validator rejects the transaction. -/
def volRejectEnv : VolatilityEnv where
  validate_transaction := fun _ _ => .ok (false, decoded0, "TKN")
  calculate_volatility_score := fun _ _ _ => .ok 80
  front_run := fun _ => .ok true
  check_market_conditions := fun _ => .ok mc0
  get_real_time_price := fun _ => .ok (some 10)
  get_token_price_data := fun _ _ _ => .ok [10]
  volatility_score_threshold := 75

/-- Volatility wiring whose historical-price fetcher raises (the spec's
Scenario D). -/
def volFailEnv : VolatilityEnv where
  validate_transaction := fun _ _ => .ok (true, decoded0, "TKN")
  calculate_volatility_score := fun _ _ _ => .ok 80
  front_run := fun _ => .ok true
  check_market_conditions := fun _ => .ok mc0
  get_real_time_price := fun _ => .ok (some 10)
  get_token_price_data := fun _ _ _ => .error (.collaboratorError "history unavailable")
  volatility_score_threshold := 75

/-- Volatility wiring whose current-price fetcher succeeds with `None`. -/
def volNullEnv : VolatilityEnv where
  validate_transaction := fun _ _ => .ok (true, decoded0, "TKN")
  calculate_volatility_score := fun _ _ _ => .ok 10
  front_run := fun _ => .ok true
  check_market_conditions := fun _ => .ok mc0
  get_real_time_price := fun _ => .ok none
  get_token_price_data := fun _ _ _ => .ok [1, 2]
  volatility_score_threshold := 75

/-- Volatility wiring where every fetcher succeeds, the historical series is
empty, and the reducer's score clears the threshold. -/
def volEmptyHighEnv : VolatilityEnv where
  validate_transaction := fun _ _ => .ok (true, decoded0, "TKN")
  calculate_volatility_score := fun _ _ _ => .ok 80
  front_run := fun _ => .ok true
  check_market_conditions := fun _ => .ok mc0
  get_real_time_price := fun _ => .ok (some 10)
  get_token_price_data := fun _ _ _ => .ok []
  volatility_score_threshold := 75

/-- Volatility wiring where every fetcher succeeds, the historical series is
empty, and the reducer's score is below the threshold. -/
def volEmptyLowEnv : VolatilityEnv where
  validate_transaction := fun _ _ => .ok (true, decoded0, "TKN")
  calculate_volatility_score := fun _ _ _ => .ok 10
  front_run := fun _ => .ok true
  check_market_conditions := fun _ => .ok mc0
  get_real_time_price := fun _ => .ok (some 10)
  get_token_price_data := fun _ _ _ => .ok []
  volatility_score_threshold := 75

/-- Volatility wiring where the score equals the threshold exactly. -/
def volBoundaryEnv : VolatilityEnv where
  validate_transaction := fun _ _ => .ok (true, decoded0, "TKN")
  calculate_volatility_score := fun _ _ _ => .ok 75
  front_run := fun _ => .ok true
  check_market_conditions := fun _ => .ok mc0
  get_real_time_price := fun _ => .ok (some 10)
  get_token_price_data := fun _ _ _ => .ok [10]
  volatility_score_threshold := 75

/-- Volatility wiring where everything succeeds and the score clears the
threshold. -/
def volOkEnv : VolatilityEnv where
  validate_transaction := fun _ _ => .ok (true, decoded0, "TKN")
  calculate_volatility_score := fun _ _ _ => .ok 80
  front_run := fun _ => .ok true
  check_market_conditions := fun _ => .ok mc0
  get_real_time_price := fun _ => .ok (some 10)
  get_token_price_data := fun _ _ _ => .ok [10]
  volatility_score_threshold := 75

/-- Advanced wiring whose validator rejects the transaction. -/
def advRejectEnv : AdvancedEnv where
  validate_transaction := fun _ _ => .ok (false, decoded0, "TKN")
  calculate_risk_score := fun _ _ _ => .ok (80, mc0)
  front_run := fun _ => .ok true
  predict_price_movement := fun _ => .ok (some 11)
  check_market_conditions := fun _ => .ok mc0
  get_real_time_price := fun _ => .ok (some 10)
  get_token_volume := fun _ => .ok (some 1000)
  risk_score_threshold := 70

/-- Advanced wiring whose volume fetcher raises. -/
def advFailEnv : AdvancedEnv where
  validate_transaction := fun _ _ => .ok (true, decoded0, "TKN")
  calculate_risk_score := fun _ _ _ => .ok (80, mc0)
  front_run := fun _ => .ok true
  predict_price_movement := fun _ => .ok (some 11)
  check_market_conditions := fun _ => .ok mc0
  get_real_time_price := fun _ => .ok (some 10)
  get_token_volume := fun _ => .error (.collaboratorError "volume feed down")
  risk_score_threshold := 70

/-- Advanced wiring whose predicted-price fetcher succeeds with `None`. -/
def advNullEnv : AdvancedEnv where
  validate_transaction := fun _ _ => .ok (true, decoded0, "TKN")
  calculate_risk_score := fun _ _ _ => .ok (80, mc0)
  front_run := fun _ => .ok true
  predict_price_movement := fun _ => .ok none
  check_market_conditions := fun _ => .ok mc0
  get_real_time_price := fun _ => .ok (some 10)
  get_token_volume := fun _ => .ok (some 1000)
  risk_score_threshold := 70

/-- Advanced wiring whose current-price fetcher succeeds with the value 0. -/
def advZeroEnv : AdvancedEnv where
  validate_transaction := fun _ _ => .ok (true, decoded0, "TKN")
  calculate_risk_score := fun _ _ _ => .ok (80, mc0)
  front_run := fun _ => .ok true
  predict_price_movement := fun _ => .ok (some 1)
  check_market_conditions := fun _ => .ok mc0
  get_real_time_price := fun _ => .ok (some 0)
  get_token_volume := fun _ => .ok (some 1000)
  risk_score_threshold := 70

/-- Advanced wiring where the score equals the threshold exactly. -/
def advBoundaryEnv : AdvancedEnv where
  validate_transaction := fun _ _ => .ok (true, decoded0, "TKN")
  calculate_risk_score := fun _ _ _ => .ok (70, mc0)
  front_run := fun _ => .ok true
  predict_price_movement := fun _ => .ok (some 11)
  check_market_conditions := fun _ => .ok mc0
  get_real_time_price := fun _ => .ok (some 10)
  get_token_volume := fun _ => .ok (some 1000)
  risk_score_threshold := 70

/-- The spec's Scenario E wiring: market conditions missing the
`low_liquidity` key, everything else succeeding. -/
def advNoLiqEnv : AdvancedEnv where
  validate_transaction := fun _ _ => .ok (true, decoded0, "TKN")
  calculate_risk_score := fun _ _ _ => .ok (80, mc0)
  front_run := fun _ => .ok true
  predict_price_movement := fun _ => .ok (some 11)
  check_market_conditions := fun _ => .ok mcNoLiquidity
  get_real_time_price := fun _ => .ok (some 10)
  get_token_volume := fun _ => .ok (some 1000)
  risk_score_threshold := 70

/-! ## Helper lemmas: path characterizations shared by the claims -/

theorem aggressive_validate_reject (env : AggressiveEnv) (tx : Tx) (d : Decoded) (s : String)
    (hv : env.validate_transaction tx "front_run" env.min_value_eth = .ok (false, d, s)) :
    AggressiveFrontRunStrategy.execute env tx = (.ok false, [.validate tx env.min_value_eth]) := by
  simp [AggressiveFrontRunStrategy.execute, hv]

theorem predictive_validate_reject (env : PredictiveEnv) (tx : Tx) (d : Decoded) (s : String)
    (hv : env.validate_transaction tx "front_run" = .ok (false, d, s)) :
    PredictiveFrontRunStrategy.execute env tx = (.ok false, [.validate tx]) := by
  simp [PredictiveFrontRunStrategy.execute, hv]

theorem volatility_validate_reject (env : VolatilityEnv) (tx : Tx) (d : Decoded) (s : String)
    (hv : env.validate_transaction tx "front_run" = .ok (false, d, s)) :
    VolatilityFrontRunStrategy.execute env tx = (.ok false, [.validate tx]) := by
  simp [VolatilityFrontRunStrategy.execute, hv]

theorem advanced_validate_reject (env : AdvancedEnv) (tx : Tx) (d : Decoded) (s : String)
    (hv : env.validate_transaction tx "front_run" = .ok (false, d, s)) :
    AdvancedFrontRunStrategy.execute env tx = (.ok false, [.validate tx]) := by
  simp [AdvancedFrontRunStrategy.execute, hv]

theorem aggressive_fetch_fail (env : AggressiveEnv) (tx : Tx) (d : Decoded) (s : String)
    (e : PyExc)
    (hv : env.validate_transaction tx "front_run" env.min_value_eth = .ok (true, d, s))
    (hp : env.get_price_change_24h s = .error e) :
    AggressiveFrontRunStrategy.execute env tx =
      (.error e, [.validate tx env.min_value_eth, .get_price_change s]) := by
  simp [AggressiveFrontRunStrategy.execute, hv, hp]

theorem predictive_gather_fail (env : PredictiveEnv) (tx : Tx) (d : Decoded) (s : String)
    (hv : env.validate_transaction tx "front_run" = .ok (true, d, s))
    (hf : (∃ e, env.predict_price_movement s = .error e) ∨
          (∃ e, env.get_real_time_price s = .error e) ∨
          (∃ e, env.check_market_conditions tx.toAddr = .error e) ∨
          (∃ e, env.get_token_price_data s "historical" 1 = .error e)) :
    PredictiveFrontRunStrategy.execute env tx =
      (.ok false, [.validate tx, .predict_price s, .get_price s, .check_market tx.toAddr,
        .get_price_data s "historical" 1]) := by
  unfold PredictiveFrontRunStrategy.execute
  rw [hv]
  rcases h1 : env.predict_price_movement s with e1 | v1 <;>
  rcases h2 : env.get_real_time_price s with e2 | v2 <;>
  rcases h3 : env.check_market_conditions tx.toAddr with e3 | v3 <;>
  rcases h4 : env.get_token_price_data s "historical" 1 with e4 | v4 <;>
    simp_all

theorem volatility_gather_fail (env : VolatilityEnv) (tx : Tx) (d : Decoded) (s : String)
    (hv : env.validate_transaction tx "front_run" = .ok (true, d, s))
    (hf : (∃ e, env.check_market_conditions tx.toAddr = .error e) ∨
          (∃ e, env.get_real_time_price s = .error e) ∨
          (∃ e, env.get_token_price_data s "historical" 1 = .error e)) :
    VolatilityFrontRunStrategy.execute env tx =
      (.ok false, [.validate tx, .check_market tx.toAddr, .get_price s,
        .get_price_data s "historical" 1]) := by
  unfold VolatilityFrontRunStrategy.execute
  rw [hv]
  rcases h1 : env.check_market_conditions tx.toAddr with e1 | v1 <;>
  rcases h2 : env.get_real_time_price s with e2 | v2 <;>
  rcases h3 : env.get_token_price_data s "historical" 1 with e3 | v3 <;>
    simp_all

theorem advanced_gather_fail (env : AdvancedEnv) (tx : Tx) (d : Decoded) (s : String)
    (hv : env.validate_transaction tx "front_run" = .ok (true, d, s))
    (hf : (∃ e, env.predict_price_movement s = .error e) ∨
          (∃ e, env.check_market_conditions tx.toAddr = .error e) ∨
          (∃ e, env.get_real_time_price s = .error e) ∨
          (∃ e, env.get_token_volume s = .error e)) :
    AdvancedFrontRunStrategy.execute env tx =
      (.ok false, [.validate tx, .predict_price s, .check_market tx.toAddr,
        .get_price s, .get_volume s]) := by
  unfold AdvancedFrontRunStrategy.execute
  rw [hv]
  rcases h1 : env.predict_price_movement s with e1 | v1 <;>
  rcases h2 : env.check_market_conditions tx.toAddr with e2 | v2 <;>
  rcases h3 : env.get_real_time_price s with e3 | v3 <;>
  rcases h4 : env.get_token_volume s with e4 | v4 <;>
    simp_all

theorem predictive_null_price (env : PredictiveEnv) (tx : Tx) (d : Decoded) (s : String)
    (p1 p2 : Option ℚ) (mc : MarketConditions) (hs : List ℚ)
    (hv : env.validate_transaction tx "front_run" = .ok (true, d, s))
    (h1 : env.predict_price_movement s = .ok p1)
    (h2 : env.get_real_time_price s = .ok p2)
    (h3 : env.check_market_conditions tx.toAddr = .ok mc)
    (h4 : env.get_token_price_data s "historical" 1 = .ok hs)
    (hnull : p2 = none ∨ p1 = none) :
    PredictiveFrontRunStrategy.execute env tx =
      (.ok false, [.validate tx, .predict_price s, .get_price s, .check_market tx.toAddr,
        .get_price_data s "historical" 1]) := by
  rcases hnull with hn | hn <;> subst hn
  · rcases p1 with _ | p <;>
      simp [PredictiveFrontRunStrategy.execute, hv, h1, h2, h3, h4]
  · simp [PredictiveFrontRunStrategy.execute, hv, h1, h2, h3, h4]

theorem advanced_null_price (env : AdvancedEnv) (tx : Tx) (d : Decoded) (s : String)
    (p1 p3 : Option ℚ) (mc : MarketConditions) (vol : Option ℚ)
    (hv : env.validate_transaction tx "front_run" = .ok (true, d, s))
    (h1 : env.predict_price_movement s = .ok p1)
    (h2 : env.check_market_conditions tx.toAddr = .ok mc)
    (h3 : env.get_real_time_price s = .ok p3)
    (h4 : env.get_token_volume s = .ok vol)
    (hnull : p3 = none ∨ p1 = none) :
    AdvancedFrontRunStrategy.execute env tx =
      (.ok false, [.validate tx, .predict_price s, .check_market tx.toAddr,
        .get_price s, .get_volume s]) := by
  rcases hnull with hn | hn <;> subst hn
  · rcases p1 with _ | p <;>
      simp [AdvancedFrontRunStrategy.execute, hv, h1, h2, h3, h4]
  · simp [AdvancedFrontRunStrategy.execute, hv, h1, h2, h3, h4]

theorem volatility_null_scored (env : VolatilityEnv) (tx : Tx) (d : Decoded) (s : String)
    (mc : MarketConditions) (cur : Option ℚ) (hs : List ℚ)
    (hv : env.validate_transaction tx "front_run" = .ok (true, d, s))
    (h1 : env.check_market_conditions tx.toAddr = .ok mc)
    (h2 : env.get_real_time_price s = .ok cur)
    (h3 : env.get_token_price_data s "historical" 1 = .ok hs) :
    VCall.calc_volatility_score hs cur mc ∈ (VolatilityFrontRunStrategy.execute env tx).2 := by
  rcases hr : env.calculate_volatility_score hs cur mc with er | score
  · simp [VolatilityFrontRunStrategy.execute, hv, h1, h2, h3, hr]
  · by_cases hhist : hs = []
    · subst hhist
      simp [VolatilityFrontRunStrategy.execute, hv, h1, h2, h3, hr]
    · by_cases hgate : env.volatility_score_threshold ≤ score
      · rcases hf : env.front_run tx with ef | b <;>
          simp [VolatilityFrontRunStrategy.execute, hv, h1, h2, h3, hr, hhist, hgate, hf]
      · simp [VolatilityFrontRunStrategy.execute, hv, h1, h2, h3, hr, hhist, hgate]

theorem predictive_reducer_args (env : PredictiveEnv) (tx : Tx) (d : Decoded) (s : String)
    (p c : ℚ) (mc : MarketConditions) (hs : List ℚ)
    (hv : env.validate_transaction tx "front_run" = .ok (true, d, s))
    (h1 : env.predict_price_movement s = .ok (some p))
    (h2 : env.get_real_time_price s = .ok (some c))
    (h3 : env.check_market_conditions tx.toAddr = .ok mc)
    (h4 : env.get_token_price_data s "historical" 1 = .ok hs)
    (hc : c ≠ 0) :
    PCall.calc_opportunity_score ((p / c - 1) * 100) (pyVolatility hs) mc c hs
      ∈ (PredictiveFrontRunStrategy.execute env tx).2 := by
  rcases hr : env.calculate_opportunity_score ((p / c - 1) * 100) (pyVolatility hs) mc c hs
      with er | score
  · simp [PredictiveFrontRunStrategy.execute, hv, h1, h2, h3, h4, hc, hr]
  · by_cases hgate : env.opportunity_score_threshold ≤ score
    · rcases hf : env.front_run tx with ef | b <;>
        simp [PredictiveFrontRunStrategy.execute, hv, h1, h2, h3, h4, hc, hr, hgate, hf]
    · simp [PredictiveFrontRunStrategy.execute, hv, h1, h2, h3, h4, hc, hr, hgate]

theorem advanced_flags_logged (env : AdvancedEnv) (tx : Tx) (d : Decoded) (s : String)
    (p c v : ℚ) (mc : MarketConditions) (score : ℚ) (mc2 : MarketConditions)
    (hv : env.validate_transaction tx "front_run" = .ok (true, d, s))
    (h1 : env.predict_price_movement s = .ok (some p))
    (h2 : env.check_market_conditions tx.toAddr = .ok mc)
    (h3 : env.get_real_time_price s = .ok (some c))
    (h4 : env.get_token_volume s = .ok (some v))
    (hc : c ≠ 0)
    (hr : env.calculate_risk_score tx s ((p / c - 1) * 100) = .ok (score, mc2)) :
    AdCall.log_analysis ((p / c - 1) * 100) (mc.bullish_trend.getD false)
      (mc.high_volatility.getD false) (!(mc.low_liquidity.getD true)) v
      ∈ (AdvancedFrontRunStrategy.execute env tx).2 := by
  by_cases hgate : env.risk_score_threshold ≤ score
  · rcases hf : env.front_run tx with ef | b <;>
      simp [AdvancedFrontRunStrategy.execute, hv, h1, h2, h3, h4, hc, hr, hgate, hf]
  · simp [AdvancedFrontRunStrategy.execute, hv, h1, h2, h3, h4, hc, hr, hgate]

theorem advanced_reducer_invoked (env : AdvancedEnv) (tx : Tx) (d : Decoded) (s : String)
    (p c : ℚ) (mc : MarketConditions) (vol : Option ℚ)
    (hv : env.validate_transaction tx "front_run" = .ok (true, d, s))
    (h1 : env.predict_price_movement s = .ok (some p))
    (h2 : env.check_market_conditions tx.toAddr = .ok mc)
    (h3 : env.get_real_time_price s = .ok (some c))
    (h4 : env.get_token_volume s = .ok vol)
    (hc : c ≠ 0) :
    (AdvancedFrontRunStrategy.execute env tx).2.countP AdCall.isReducer = 1 := by
  rcases hr : env.calculate_risk_score tx s ((p / c - 1) * 100) with er | ⟨score, mc2⟩
  · simp [AdvancedFrontRunStrategy.execute, hv, h1, h2, h3, h4, hc, hr, AdCall.isReducer]
  · rcases vol with _ | v
    · simp [AdvancedFrontRunStrategy.execute, hv, h1, h2, h3, h4, hc, hr, AdCall.isReducer]
    · by_cases hgate : env.risk_score_threshold ≤ score
      · rcases hf : env.front_run tx with ef | b <;>
          simp [AdvancedFrontRunStrategy.execute, hv, h1, h2, h3, h4, hc, hr, hgate, hf,
            AdCall.isReducer]
      · simp [AdvancedFrontRunStrategy.execute, hv, h1, h2, h3, h4, hc, hr, hgate,
          AdCall.isReducer]

theorem aggressive_true_dispatch (env : AggressiveEnv) (tx : Tx)
    (h : (AggressiveFrontRunStrategy.execute env tx).1 = .ok true) :
    (AggressiveFrontRunStrategy.execute env tx).2.countP ACall.isFrontRun = 1 ∧
    env.front_run tx = .ok true := by
  rcases hv : env.validate_transaction tx "front_run" env.min_value_eth with e | ⟨valid, d, s⟩
  · simp [AggressiveFrontRunStrategy.execute, hv] at h
  · by_cases hvalid : valid = false
    · simp [AggressiveFrontRunStrategy.execute, hv, hvalid] at h
    · rcases hp : env.get_price_change_24h s with e | pc
      · simp [AggressiveFrontRunStrategy.execute, hv, hvalid, hp] at h
      · rcases hr : env.calculate_risk_score tx s pc with e | ⟨score, mc⟩
        · simp [AggressiveFrontRunStrategy.execute, hv, hvalid, hp, hr] at h
        · by_cases hgate : env.risk_score_threshold ≤ score
          · rcases hf : env.front_run tx with e | b
            · simp [AggressiveFrontRunStrategy.execute, hv, hvalid, hp, hr, hgate, hf] at h
            · have hb : b = true := by
                simpa [AggressiveFrontRunStrategy.execute, hv, hvalid, hp, hr, hgate, hf] using h
              subst hb
              refine ⟨?_, rfl⟩
              simp [AggressiveFrontRunStrategy.execute, hv, hvalid, hp, hr, hgate, hf,
                ACall.isFrontRun]
          · simp [AggressiveFrontRunStrategy.execute, hv, hvalid, hp, hr, hgate] at h

theorem predictive_true_dispatch (env : PredictiveEnv) (tx : Tx)
    (h : (PredictiveFrontRunStrategy.execute env tx).1 = .ok true) :
    (PredictiveFrontRunStrategy.execute env tx).2.countP PCall.isFrontRun = 1 ∧
    env.front_run tx = .ok true := by
  rcases hv : env.validate_transaction tx "front_run" with e | ⟨valid, d, s⟩
  · simp [PredictiveFrontRunStrategy.execute, hv] at h
  · by_cases hvalid : valid = false
    · simp [PredictiveFrontRunStrategy.execute, hv, hvalid] at h
    · rcases h1 : env.predict_price_movement s with e1 | p1
      · simp [PredictiveFrontRunStrategy.execute, hv, hvalid, h1] at h
      · rcases h2 : env.get_real_time_price s with e2 | p2
        · simp [PredictiveFrontRunStrategy.execute, hv, hvalid, h1, h2] at h
        · rcases h3 : env.check_market_conditions tx.toAddr with e3 | m3
          · simp [PredictiveFrontRunStrategy.execute, hv, hvalid, h1, h2, h3] at h
          · rcases h4 : env.get_token_price_data s "historical" 1 with e4 | hs4
            · simp [PredictiveFrontRunStrategy.execute, hv, hvalid, h1, h2, h3, h4] at h
            · rcases p1 with _ | p
              · simp [PredictiveFrontRunStrategy.execute, hv, hvalid, h1, h2, h3, h4] at h
              · rcases p2 with _ | c
                · simp [PredictiveFrontRunStrategy.execute, hv, hvalid, h1, h2, h3, h4] at h
                · by_cases hc : c = 0
                  · simp [PredictiveFrontRunStrategy.execute, hv, hvalid, h1, h2, h3, h4,
                      hc] at h
                  · rcases hr : env.calculate_opportunity_score ((p / c - 1) * 100)
                        (pyVolatility hs4) m3 c hs4 with er | score
                    · simp [PredictiveFrontRunStrategy.execute, hv, hvalid, h1, h2, h3, h4,
                        hc, hr] at h
                    · by_cases hgate : env.opportunity_score_threshold ≤ score
                      · rcases hf : env.front_run tx with ef | b
                        · simp [PredictiveFrontRunStrategy.execute, hv, hvalid, h1, h2, h3,
                            h4, hc, hr, hgate, hf] at h
                        · have hb : b = true := by
                            simpa [PredictiveFrontRunStrategy.execute, hv, hvalid, h1, h2,
                              h3, h4, hc, hr, hgate, hf] using h
                          subst hb
                          refine ⟨?_, rfl⟩
                          simp [PredictiveFrontRunStrategy.execute, hv, hvalid, h1, h2, h3,
                            h4, hc, hr, hgate, hf, PCall.isFrontRun]
                      · simp [PredictiveFrontRunStrategy.execute, hv, hvalid, h1, h2, h3,
                          h4, hc, hr, hgate] at h

theorem volatility_true_dispatch (env : VolatilityEnv) (tx : Tx)
    (h : (VolatilityFrontRunStrategy.execute env tx).1 = .ok true) :
    (VolatilityFrontRunStrategy.execute env tx).2.countP VCall.isFrontRun = 1 ∧
    env.front_run tx = .ok true := by
  rcases hv : env.validate_transaction tx "front_run" with e | ⟨valid, d, s⟩
  · simp [VolatilityFrontRunStrategy.execute, hv] at h
  · by_cases hvalid : valid = false
    · simp [VolatilityFrontRunStrategy.execute, hv, hvalid] at h
    · rcases h1 : env.check_market_conditions tx.toAddr with e1 | m1
      · simp [VolatilityFrontRunStrategy.execute, hv, hvalid, h1] at h
      · rcases h2 : env.get_real_time_price s with e2 | p2
        · simp [VolatilityFrontRunStrategy.execute, hv, hvalid, h1, h2] at h
        · rcases h3 : env.get_token_price_data s "historical" 1 with e3 | hs3
          · simp [VolatilityFrontRunStrategy.execute, hv, hvalid, h1, h2, h3] at h
          · rcases hr : env.calculate_volatility_score hs3 p2 m1 with er | score
            · simp [VolatilityFrontRunStrategy.execute, hv, hvalid, h1, h2, h3, hr] at h
            · by_cases hhist : hs3 = []
              · subst hhist
                simp [VolatilityFrontRunStrategy.execute, hv, hvalid, h1, h2, h3, hr] at h
              · by_cases hgate : env.volatility_score_threshold ≤ score
                · rcases hf : env.front_run tx with ef | b
                  · simp [VolatilityFrontRunStrategy.execute, hv, hvalid, h1, h2, h3, hr,
                      hhist, hgate, hf] at h
                  · have hb : b = true := by
                      simpa [VolatilityFrontRunStrategy.execute, hv, hvalid, h1, h2, h3, hr,
                        hhist, hgate, hf] using h
                    subst hb
                    refine ⟨?_, rfl⟩
                    simp [VolatilityFrontRunStrategy.execute, hv, hvalid, h1, h2, h3, hr,
                      hhist, hgate, hf, VCall.isFrontRun]
                · simp [VolatilityFrontRunStrategy.execute, hv, hvalid, h1, h2, h3, hr,
                    hhist, hgate] at h

theorem advanced_true_dispatch (env : AdvancedEnv) (tx : Tx)
    (h : (AdvancedFrontRunStrategy.execute env tx).1 = .ok true) :
    (AdvancedFrontRunStrategy.execute env tx).2.countP AdCall.isFrontRun = 1 ∧
    env.front_run tx = .ok true := by
  rcases hv : env.validate_transaction tx "front_run" with e | ⟨valid, d, s⟩
  · simp [AdvancedFrontRunStrategy.execute, hv] at h
  · by_cases hvalid : valid = false
    · simp [AdvancedFrontRunStrategy.execute, hv, hvalid] at h
    · rcases h1 : env.predict_price_movement s with e1 | p1
      · simp [AdvancedFrontRunStrategy.execute, hv, hvalid, h1] at h
      · rcases h2 : env.check_market_conditions tx.toAddr with e2 | m2
        · simp [AdvancedFrontRunStrategy.execute, hv, hvalid, h1, h2] at h
        · rcases h3 : env.get_real_time_price s with e3 | p3
          · simp [AdvancedFrontRunStrategy.execute, hv, hvalid, h1, h2, h3] at h
          · rcases h4 : env.get_token_volume s with e4 | vol
            · simp [AdvancedFrontRunStrategy.execute, hv, hvalid, h1, h2, h3, h4] at h
            · rcases p1 with _ | p
              · simp [AdvancedFrontRunStrategy.execute, hv, hvalid, h1, h2, h3, h4] at h
              · rcases p3 with _ | c
                · simp [AdvancedFrontRunStrategy.execute, hv, hvalid, h1, h2, h3, h4] at h
                · by_cases hc : c = 0
                  · simp [AdvancedFrontRunStrategy.execute, hv, hvalid, h1, h2, h3, h4,
                      hc] at h
                  · rcases hr : env.calculate_risk_score tx s ((p / c - 1) * 100)
                        with er | ⟨score, mc2⟩
                    · simp [AdvancedFrontRunStrategy.execute, hv, hvalid, h1, h2, h3, h4,
                        hc, hr] at h
                    · rcases vol with _ | v
                      · simp [AdvancedFrontRunStrategy.execute, hv, hvalid, h1, h2, h3, h4,
                          hc, hr] at h
                      · by_cases hgate : env.risk_score_threshold ≤ score
                        · rcases hf : env.front_run tx with ef | b
                          · simp [AdvancedFrontRunStrategy.execute, hv, hvalid, h1, h2, h3,
                              h4, hc, hr, hgate, hf] at h
                          · have hb : b = true := by
                              simpa [AdvancedFrontRunStrategy.execute, hv, hvalid, h1, h2,
                                h3, h4, hc, hr, hgate, hf] using h
                            subst hb
                            refine ⟨?_, rfl⟩
                            simp [AdvancedFrontRunStrategy.execute, hv, hvalid, h1, h2, h3,
                              h4, hc, hr, hgate, hf, AdCall.isFrontRun]
                        · simp [AdvancedFrontRunStrategy.execute, hv, hvalid, h1, h2, h3,
                            h4, hc, hr, hgate] at h

/-! ## Claims -/

/-- C1 counterexample: the aggressive variant wraps no collaborator call in
an exception handler, so a failing 24h price-change fetcher propagates out
of `execute` instead of degrading to `false` — the claim that no variant
ever raises is false at this input. -/
theorem aggressive_uncaught_fetch_exception :
    (AggressiveFrontRunStrategy.execute aggFailEnv tx0).1 =
      .error (.collaboratorError "api down") ∧
    (AggressiveFrontRunStrategy.execute aggFailEnv tx0).1 ≠ .ok false := by
  exact ⟨by decide, by decide⟩

/-- C1 (amended): in the predictive, volatility and advanced variants, a
signal-fetcher failure during the concurrent gather is caught and degraded
to the return value `false`; in the aggressive variant, which has no
handler, a fetcher failure propagates out of `execute` as the same
exception. -/
theorem gather_failures_degrade_to_false :
    (∀ (env : PredictiveEnv) (tx : Tx) (d : Decoded) (s : String),
      env.validate_transaction tx "front_run" = .ok (true, d, s) →
      ((∃ e, env.predict_price_movement s = .error e) ∨
       (∃ e, env.get_real_time_price s = .error e) ∨
       (∃ e, env.check_market_conditions tx.toAddr = .error e) ∨
       (∃ e, env.get_token_price_data s "historical" 1 = .error e)) →
      (PredictiveFrontRunStrategy.execute env tx).1 = .ok false) ∧
    (∀ (env : VolatilityEnv) (tx : Tx) (d : Decoded) (s : String),
      env.validate_transaction tx "front_run" = .ok (true, d, s) →
      ((∃ e, env.check_market_conditions tx.toAddr = .error e) ∨
       (∃ e, env.get_real_time_price s = .error e) ∨
       (∃ e, env.get_token_price_data s "historical" 1 = .error e)) →
      (VolatilityFrontRunStrategy.execute env tx).1 = .ok false) ∧
    (∀ (env : AdvancedEnv) (tx : Tx) (d : Decoded) (s : String),
      env.validate_transaction tx "front_run" = .ok (true, d, s) →
      ((∃ e, env.predict_price_movement s = .error e) ∨
       (∃ e, env.check_market_conditions tx.toAddr = .error e) ∨
       (∃ e, env.get_real_time_price s = .error e) ∨
       (∃ e, env.get_token_volume s = .error e)) →
      (AdvancedFrontRunStrategy.execute env tx).1 = .ok false) ∧
    (∀ (env : AggressiveEnv) (tx : Tx) (d : Decoded) (s : String) (e : PyExc),
      env.validate_transaction tx "front_run" env.min_value_eth = .ok (true, d, s) →
      env.get_price_change_24h s = .error e →
      (AggressiveFrontRunStrategy.execute env tx).1 = .error e) := by
  refine ⟨?_, ?_, ?_, ?_⟩
  · intro env tx d s hv hf
    rw [predictive_gather_fail env tx d s hv hf]
  · intro env tx d s hv hf
    rw [volatility_gather_fail env tx d s hv hf]
  · intro env tx d s hv hf
    rw [advanced_gather_fail env tx d s hv hf]
  · intro env tx d s e hv hp
    rw [aggressive_fetch_fail env tx d s e hv hp]

/-- C1 witness: the amended statement applied at concrete wirings in which
one fetcher fails. -/
theorem gather_failures_degrade_to_false_witness :
    (PredictiveFrontRunStrategy.execute predFailEnv tx0).1 = .ok false ∧
    (VolatilityFrontRunStrategy.execute volFailEnv tx0).1 = .ok false ∧
    (AdvancedFrontRunStrategy.execute advFailEnv tx0).1 = .ok false ∧
    (AggressiveFrontRunStrategy.execute aggFailEnv tx0).1 =
      .error (.collaboratorError "api down") := by
  refine ⟨?_, ?_, ?_, ?_⟩
  · exact gather_failures_degrade_to_false.1 predFailEnv tx0 decoded0 "TKN" rfl
      (Or.inl ⟨_, rfl⟩)
  · exact gather_failures_degrade_to_false.2.1 volFailEnv tx0 decoded0 "TKN" rfl
      (Or.inr (Or.inr ⟨_, rfl⟩))
  · exact gather_failures_degrade_to_false.2.2.1 advFailEnv tx0 decoded0 "TKN" rfl
      (Or.inr (Or.inr (Or.inr ⟨_, rfl⟩)))
  · exact gather_failures_degrade_to_false.2.2.2 aggFailEnv tx0 decoded0 "TKN"
      (.collaboratorError "api down") rfl rfl

/-- C2 counterexample: in the aggressive variant a failing signal fetcher
does not make `execute` return `false` — the exception propagates (though
the executor is indeed never invoked), so the claim as stated is false at
this input. -/
theorem fetch_failure_not_degraded_aggressive :
    (AggressiveFrontRunStrategy.execute aggFailEnv2 tx0).1 =
      .error (.collaboratorError "feed offline") ∧
    (AggressiveFrontRunStrategy.execute aggFailEnv2 tx0).1 ≠ .ok false ∧
    (AggressiveFrontRunStrategy.execute aggFailEnv2 tx0).2.countP ACall.isFrontRun = 0 := by
  exact ⟨by decide, by decide, by decide⟩

/-- C2 (amended): in the predictive, volatility and advanced variants, any
signal-fetcher failure makes `execute` return `false` with the executor
never invoked; in the aggressive variant the executor is likewise never
invoked, but the failure propagates as an exception instead of the return
value `false`. -/
theorem fetch_failure_skips_executor :
    (∀ (env : PredictiveEnv) (tx : Tx) (d : Decoded) (s : String),
      env.validate_transaction tx "front_run" = .ok (true, d, s) →
      ((∃ e, env.predict_price_movement s = .error e) ∨
       (∃ e, env.get_real_time_price s = .error e) ∨
       (∃ e, env.check_market_conditions tx.toAddr = .error e) ∨
       (∃ e, env.get_token_price_data s "historical" 1 = .error e)) →
      (PredictiveFrontRunStrategy.execute env tx).1 = .ok false ∧
      (PredictiveFrontRunStrategy.execute env tx).2.countP PCall.isFrontRun = 0) ∧
    (∀ (env : VolatilityEnv) (tx : Tx) (d : Decoded) (s : String),
      env.validate_transaction tx "front_run" = .ok (true, d, s) →
      ((∃ e, env.check_market_conditions tx.toAddr = .error e) ∨
       (∃ e, env.get_real_time_price s = .error e) ∨
       (∃ e, env.get_token_price_data s "historical" 1 = .error e)) →
      (VolatilityFrontRunStrategy.execute env tx).1 = .ok false ∧
      (VolatilityFrontRunStrategy.execute env tx).2.countP VCall.isFrontRun = 0) ∧
    (∀ (env : AdvancedEnv) (tx : Tx) (d : Decoded) (s : String),
      env.validate_transaction tx "front_run" = .ok (true, d, s) →
      ((∃ e, env.predict_price_movement s = .error e) ∨
       (∃ e, env.check_market_conditions tx.toAddr = .error e) ∨
       (∃ e, env.get_real_time_price s = .error e) ∨
       (∃ e, env.get_token_volume s = .error e)) →
      (AdvancedFrontRunStrategy.execute env tx).1 = .ok false ∧
      (AdvancedFrontRunStrategy.execute env tx).2.countP AdCall.isFrontRun = 0) ∧
    (∀ (env : AggressiveEnv) (tx : Tx) (d : Decoded) (s : String) (e : PyExc),
      env.validate_transaction tx "front_run" env.min_value_eth = .ok (true, d, s) →
      env.get_price_change_24h s = .error e →
      (AggressiveFrontRunStrategy.execute env tx).1 = .error e ∧
      (AggressiveFrontRunStrategy.execute env tx).2.countP ACall.isFrontRun = 0) := by
  refine ⟨?_, ?_, ?_, ?_⟩
  · intro env tx d s hv hf
    rw [predictive_gather_fail env tx d s hv hf]
    exact ⟨rfl, by simp [PCall.isFrontRun]⟩
  · intro env tx d s hv hf
    rw [volatility_gather_fail env tx d s hv hf]
    exact ⟨rfl, by simp [VCall.isFrontRun]⟩
  · intro env tx d s hv hf
    rw [advanced_gather_fail env tx d s hv hf]
    exact ⟨rfl, by simp [AdCall.isFrontRun]⟩
  · intro env tx d s e hv hp
    rw [aggressive_fetch_fail env tx d s e hv hp]
    exact ⟨rfl, by simp [ACall.isFrontRun]⟩

/-- C2 witness: the amended statement applied at concrete wirings in which
one fetcher fails. -/
theorem fetch_failure_skips_executor_witness :
    ((PredictiveFrontRunStrategy.execute predFailEnv tx0).1 = .ok false ∧
      (PredictiveFrontRunStrategy.execute predFailEnv tx0).2.countP PCall.isFrontRun = 0) ∧
    ((VolatilityFrontRunStrategy.execute volFailEnv tx0).1 = .ok false ∧
      (VolatilityFrontRunStrategy.execute volFailEnv tx0).2.countP VCall.isFrontRun = 0) ∧
    ((AdvancedFrontRunStrategy.execute advFailEnv tx0).1 = .ok false ∧
      (AdvancedFrontRunStrategy.execute advFailEnv tx0).2.countP AdCall.isFrontRun = 0) ∧
    ((AggressiveFrontRunStrategy.execute aggFailEnv2 tx0).1 =
        .error (.collaboratorError "feed offline") ∧
      (AggressiveFrontRunStrategy.execute aggFailEnv2 tx0).2.countP ACall.isFrontRun = 0) := by
  refine ⟨?_, ?_, ?_, ?_⟩
  · exact fetch_failure_skips_executor.1 predFailEnv tx0 decoded0 "TKN" rfl
      (Or.inl ⟨_, rfl⟩)
  · exact fetch_failure_skips_executor.2.1 volFailEnv tx0 decoded0 "TKN" rfl
      (Or.inr (Or.inr ⟨_, rfl⟩))
  · exact fetch_failure_skips_executor.2.2.1 advFailEnv tx0 decoded0 "TKN" rfl
      (Or.inr (Or.inr (Or.inr ⟨_, rfl⟩)))
  · exact fetch_failure_skips_executor.2.2.2 aggFailEnv2 tx0 decoded0 "TKN"
      (.collaboratorError "feed offline") rfl rfl

/-- C3: in every variant, when the validator answers `is_valid = false`,
`execute` returns `false` and the call trace is exactly the single
validation call — no fetcher, no score reducer and no executor runs. -/
theorem validation_rejection_no_side_effects :
    (∀ (env : AggressiveEnv) (tx : Tx) (d : Decoded) (s : String),
      env.validate_transaction tx "front_run" env.min_value_eth = .ok (false, d, s) →
      AggressiveFrontRunStrategy.execute env tx =
        (.ok false, [.validate tx env.min_value_eth])) ∧
    (∀ (env : PredictiveEnv) (tx : Tx) (d : Decoded) (s : String),
      env.validate_transaction tx "front_run" = .ok (false, d, s) →
      PredictiveFrontRunStrategy.execute env tx = (.ok false, [.validate tx])) ∧
    (∀ (env : VolatilityEnv) (tx : Tx) (d : Decoded) (s : String),
      env.validate_transaction tx "front_run" = .ok (false, d, s) →
      VolatilityFrontRunStrategy.execute env tx = (.ok false, [.validate tx])) ∧
    (∀ (env : AdvancedEnv) (tx : Tx) (d : Decoded) (s : String),
      env.validate_transaction tx "front_run" = .ok (false, d, s) →
      AdvancedFrontRunStrategy.execute env tx = (.ok false, [.validate tx])) :=
  ⟨aggressive_validate_reject, predictive_validate_reject, volatility_validate_reject,
    advanced_validate_reject⟩

/-- C3 witness: the statement applied at concrete wirings whose validator
rejects the transaction. -/
theorem validation_rejection_no_side_effects_witness :
    AggressiveFrontRunStrategy.execute aggRejectEnv tx0 =
      (.ok false, [.validate tx0 (1 / 100)]) ∧
    PredictiveFrontRunStrategy.execute predRejectEnv tx0 = (.ok false, [.validate tx0]) ∧
    VolatilityFrontRunStrategy.execute volRejectEnv tx0 = (.ok false, [.validate tx0]) ∧
    AdvancedFrontRunStrategy.execute advRejectEnv tx0 = (.ok false, [.validate tx0]) := by
  refine ⟨?_, ?_, ?_, ?_⟩
  · exact validation_rejection_no_side_effects.1 aggRejectEnv tx0 decoded0 "TKN" rfl
  · exact validation_rejection_no_side_effects.2.1 predRejectEnv tx0 decoded0 "TKN" rfl
  · exact validation_rejection_no_side_effects.2.2.1 volRejectEnv tx0 decoded0 "TKN" rfl
  · exact validation_rejection_no_side_effects.2.2.2 advRejectEnv tx0 decoded0 "TKN" rfl

/-- C4 (code bug): in the volatility variant, with every fetcher
succeeding, an empty historical series and a score clearing the threshold,
the post-score debug log's `min(historical_prices)` raises `ValueError`, so
the executor is never invoked even though the gate would pass — contrary to
the claim and to the method's own docstring. -/
theorem volatility_empty_history_log_crash :
    (VolatilityFrontRunStrategy.execute volEmptyHighEnv tx0).1 = .error .valueError ∧
    (VolatilityFrontRunStrategy.execute volEmptyHighEnv tx0).2.countP VCall.isFrontRun = 0 ∧
    (VolatilityFrontRunStrategy.execute volEmptyHighEnv tx0).2.countP VCall.isReducer = 1 := by
  exact ⟨by decide, by decide, by decide⟩

/-- C5 (code bug): the threshold gate is inclusive in every variant (a
score exactly equal to the threshold dispatches the executor), but on the
below-threshold side the volatility variant can raise from its debug log
instead of returning `false` when the historical series is empty. -/
theorem threshold_gate_boundary_and_log_crash :
    (AggressiveFrontRunStrategy.execute aggBoundaryEnv tx0).1 = .ok true ∧
    (PredictiveFrontRunStrategy.execute predBoundaryEnv tx0).1 = .ok true ∧
    (VolatilityFrontRunStrategy.execute volBoundaryEnv tx0).1 = .ok true ∧
    (AdvancedFrontRunStrategy.execute advBoundaryEnv tx0).1 = .ok true ∧
    (VolatilityFrontRunStrategy.execute volEmptyLowEnv tx0).1 = .error .valueError ∧
    (VolatilityFrontRunStrategy.execute volEmptyLowEnv tx0).2.countP VCall.isFrontRun = 0 := by
  exact ⟨by decide, by rfl, by decide, by decide, by decide, by decide⟩

/-- C6 counterexample: the volatility variant performs no null check on the
gathered values — with a current price of `None` (a fetcher success) the
score reducer is still invoked, on the partial bundle, so the claim that
the evaluation aborts before scoring is false at this input. -/
theorem volatility_null_price_scored :
    VCall.calc_volatility_score [1, 2] none mc0
      ∈ (VolatilityFrontRunStrategy.execute volNullEnv tx0).2 ∧
    (VolatilityFrontRunStrategy.execute volNullEnv tx0).2.countP VCall.isReducer = 1 := by
  exact ⟨by decide, by decide⟩

/-- C6 (amended): in the predictive and advanced variants a null current or
predicted price aborts the evaluation with `false` before the score reducer
is called; the volatility variant has no such check and passes whatever was
gathered — including a null current price — to its reducer. -/
theorem null_price_aborts_where_checked :
    (∀ (env : PredictiveEnv) (tx : Tx) (d : Decoded) (s : String)
       (p1 p2 : Option ℚ) (mc : MarketConditions) (hs : List ℚ),
      env.validate_transaction tx "front_run" = .ok (true, d, s) →
      env.predict_price_movement s = .ok p1 →
      env.get_real_time_price s = .ok p2 →
      env.check_market_conditions tx.toAddr = .ok mc →
      env.get_token_price_data s "historical" 1 = .ok hs →
      (p2 = none ∨ p1 = none) →
      (PredictiveFrontRunStrategy.execute env tx).1 = .ok false ∧
      (PredictiveFrontRunStrategy.execute env tx).2.countP PCall.isReducer = 0) ∧
    (∀ (env : AdvancedEnv) (tx : Tx) (d : Decoded) (s : String)
       (p1 p3 : Option ℚ) (mc : MarketConditions) (vol : Option ℚ),
      env.validate_transaction tx "front_run" = .ok (true, d, s) →
      env.predict_price_movement s = .ok p1 →
      env.check_market_conditions tx.toAddr = .ok mc →
      env.get_real_time_price s = .ok p3 →
      env.get_token_volume s = .ok vol →
      (p3 = none ∨ p1 = none) →
      (AdvancedFrontRunStrategy.execute env tx).1 = .ok false ∧
      (AdvancedFrontRunStrategy.execute env tx).2.countP AdCall.isReducer = 0) ∧
    (∀ (env : VolatilityEnv) (tx : Tx) (d : Decoded) (s : String)
       (mc : MarketConditions) (hs : List ℚ),
      env.validate_transaction tx "front_run" = .ok (true, d, s) →
      env.check_market_conditions tx.toAddr = .ok mc →
      env.get_real_time_price s = .ok none →
      env.get_token_price_data s "historical" 1 = .ok hs →
      VCall.calc_volatility_score hs none mc
        ∈ (VolatilityFrontRunStrategy.execute env tx).2) := by
  refine ⟨?_, ?_, ?_⟩
  · intro env tx d s p1 p2 mc hs hv h1 h2 h3 h4 hnull
    rw [predictive_null_price env tx d s p1 p2 mc hs hv h1 h2 h3 h4 hnull]
    exact ⟨rfl, by simp [PCall.isReducer]⟩
  · intro env tx d s p1 p3 mc vol hv h1 h2 h3 h4 hnull
    rw [advanced_null_price env tx d s p1 p3 mc vol hv h1 h2 h3 h4 hnull]
    exact ⟨rfl, by simp [AdCall.isReducer]⟩
  · intro env tx d s mc hs hv h1 h2 h3
    exact volatility_null_scored env tx d s mc none hs hv h1 h2 h3

/-- C6 witness: the amended statement applied at concrete wirings in which
a gathered price is `None`. -/
theorem null_price_aborts_where_checked_witness :
    (PredictiveFrontRunStrategy.execute predNullEnv tx0).1 = .ok false ∧
    (AdvancedFrontRunStrategy.execute advNullEnv tx0).1 = .ok false ∧
    VCall.calc_volatility_score [1, 2] none mc0
      ∈ (VolatilityFrontRunStrategy.execute volNullEnv tx0).2 := by
  refine ⟨?_, ?_, ?_⟩
  · exact (null_price_aborts_where_checked.1 predNullEnv tx0 decoded0 "TKN" (some 11) none
      mc0 [10] rfl rfl rfl rfl rfl (Or.inl rfl)).1
  · exact (null_price_aborts_where_checked.2.1 advNullEnv tx0 decoded0 "TKN" none (some 10)
      mc0 (some 1000) rfl rfl rfl rfl rfl (Or.inr rfl)).1
  · exact null_price_aborts_where_checked.2.2 volNullEnv tx0 decoded0 "TKN" mc0 [1, 2]
      rfl rfl rfl rfl

/-- C7: the predictive variant hands its score reducer the percentage price
change `(predicted / current - 1) * 100` and the volatility ratio
`np.std(historical) / np.mean(historical)`, the latter being the literal 0
when the historical series is empty; at current = 10 and predicted = 10.5
the price change is exactly 5. -/
theorem predictive_score_inputs :
    (∀ (env : PredictiveEnv) (tx : Tx) (d : Decoded) (s : String) (p c : ℚ)
       (mc : MarketConditions) (hs : List ℚ),
      env.validate_transaction tx "front_run" = .ok (true, d, s) →
      env.predict_price_movement s = .ok (some p) →
      env.get_real_time_price s = .ok (some c) →
      env.check_market_conditions tx.toAddr = .ok mc →
      env.get_token_price_data s "historical" 1 = .ok hs →
      c ≠ 0 →
      PCall.calc_opportunity_score ((p / c - 1) * 100) (pyVolatility hs) mc c hs
        ∈ (PredictiveFrontRunStrategy.execute env tx).2) ∧
    pyVolatility [] = 0 ∧
    (∀ hs : List ℚ, hs ≠ [] → pyVolatility hs = npStd hs / ((npMean hs : ℚ) : ℝ)) ∧
    ((21 / 2 : ℚ) / 10 - 1) * 100 = 5 := by
  refine ⟨predictive_reducer_args, by simp [pyVolatility], ?_, by norm_num⟩
  intro hs h
  simp [pyVolatility, h]

/-- C7 witness: Scenario C — at current price 10, predicted price 10.5 and
historical prices [9.5, 9.8, 10.1, 9.9], the reducer receives the price
change 5; the nonempty-series ratio shape instantiated at [1]. -/
theorem predictive_score_inputs_witness :
    PCall.calc_opportunity_score 5 (pyVolatility [19 / 2, 49 / 5, 101 / 10, 99 / 10]) mc0 10
      [19 / 2, 49 / 5, 101 / 10, 99 / 10]
      ∈ (PredictiveFrontRunStrategy.execute predScenarioC tx0).2 ∧
    pyVolatility [1] = npStd [1] / ((npMean [1] : ℚ) : ℝ) := by
  constructor
  · have h := predictive_score_inputs.1 predScenarioC tx0 decoded0 "TKN" (21 / 2) 10 mc0
      [19 / 2, 49 / 5, 101 / 10, 99 / 10] rfl rfl rfl rfl rfl (by norm_num)
    have e5 : ((21 / 2 : ℚ) / 10 - 1) * 100 = 5 := by norm_num
    rw [e5] at h
    exact h
  · exact predictive_score_inputs.2.2.1 [1] (by simp)

/-- C8: the advanced variant derives its boolean market readings with
conservative defaults — `is_bullish` and `is_volatile` default to `false`
and `has_liquidity` is the negation of `low_liquidity`, which defaults to
`true`, so a missing `low_liquidity` key reads as illiquid — and a missing
key does not abort the evaluation: the risk reducer still runs. -/
theorem advanced_conservative_defaults :
    (∀ (env : AdvancedEnv) (tx : Tx) (d : Decoded) (s : String) (p c v : ℚ)
       (mc : MarketConditions) (score : ℚ) (mc2 : MarketConditions),
      env.validate_transaction tx "front_run" = .ok (true, d, s) →
      env.predict_price_movement s = .ok (some p) →
      env.check_market_conditions tx.toAddr = .ok mc →
      env.get_real_time_price s = .ok (some c) →
      env.get_token_volume s = .ok (some v) →
      c ≠ 0 →
      env.calculate_risk_score tx s ((p / c - 1) * 100) = .ok (score, mc2) →
      AdCall.log_analysis ((p / c - 1) * 100) (mc.bullish_trend.getD false)
        (mc.high_volatility.getD false) (!(mc.low_liquidity.getD true)) v
        ∈ (AdvancedFrontRunStrategy.execute env tx).2) ∧
    (∀ mc : MarketConditions, mc.bullish_trend = none → mc.bullish_trend.getD false = false) ∧
    (∀ mc : MarketConditions, mc.high_volatility = none →
      mc.high_volatility.getD false = false) ∧
    (∀ mc : MarketConditions, mc.low_liquidity = none →
      (!(mc.low_liquidity.getD true)) = false) ∧
    (∀ (env : AdvancedEnv) (tx : Tx) (d : Decoded) (s : String) (p c : ℚ)
       (mc : MarketConditions) (vol : Option ℚ),
      env.validate_transaction tx "front_run" = .ok (true, d, s) →
      env.predict_price_movement s = .ok (some p) →
      env.check_market_conditions tx.toAddr = .ok mc →
      env.get_real_time_price s = .ok (some c) →
      env.get_token_volume s = .ok vol →
      mc.low_liquidity = none →
      c ≠ 0 →
      (AdvancedFrontRunStrategy.execute env tx).2.countP AdCall.isReducer = 1) := by
  refine ⟨?_, ?_, ?_, ?_, ?_⟩
  · intro env tx d s p c v mc score mc2 hv h1 h2 h3 h4 hc hr
    exact advanced_flags_logged env tx d s p c v mc score mc2 hv h1 h2 h3 h4 hc hr
  · intro mc h
    rw [h]
    rfl
  · intro mc h
    rw [h]
    rfl
  · intro mc h
    rw [h]
    rfl
  · intro env tx d s p c mc vol hv h1 h2 h3 h4 _ hc
    exact advanced_reducer_invoked env tx d s p c mc vol hv h1 h2 h3 h4 hc

/-- C8 witness: Scenario E — with `low_liquidity` missing, the logged
readings are bullish, volatile and illiquid, and the reducer still runs. -/
theorem advanced_conservative_defaults_witness :
    AdCall.log_analysis 10 true true false 1000
      ∈ (AdvancedFrontRunStrategy.execute advNoLiqEnv tx0).2 ∧
    (AdvancedFrontRunStrategy.execute advNoLiqEnv tx0).2.countP AdCall.isReducer = 1 := by
  constructor
  · have h := advanced_conservative_defaults.1 advNoLiqEnv tx0 decoded0 "TKN" 11 10 1000
      mcNoLiquidity 80 mc0 rfl rfl rfl rfl rfl (by norm_num) rfl
    have e10 : ((11 : ℚ) / 10 - 1) * 100 = 10 := by norm_num
    rw [e10] at h
    simpa [mcNoLiquidity] using h
  · exact advanced_conservative_defaults.2.2.2.2 advNoLiqEnv tx0 decoded0 "TKN" 11 10
      mcNoLiquidity (some 1000) rfl rfl rfl rfl rfl rfl (by norm_num)

/-- C9: in every variant, `execute` answers `true` only when the front-run
executor was actually invoked (exactly once) and itself returned `true`. -/
theorem true_result_certifies_dispatch :
    (∀ (env : AggressiveEnv) (tx : Tx),
      (AggressiveFrontRunStrategy.execute env tx).1 = .ok true →
      (AggressiveFrontRunStrategy.execute env tx).2.countP ACall.isFrontRun = 1 ∧
      env.front_run tx = .ok true) ∧
    (∀ (env : PredictiveEnv) (tx : Tx),
      (PredictiveFrontRunStrategy.execute env tx).1 = .ok true →
      (PredictiveFrontRunStrategy.execute env tx).2.countP PCall.isFrontRun = 1 ∧
      env.front_run tx = .ok true) ∧
    (∀ (env : VolatilityEnv) (tx : Tx),
      (VolatilityFrontRunStrategy.execute env tx).1 = .ok true →
      (VolatilityFrontRunStrategy.execute env tx).2.countP VCall.isFrontRun = 1 ∧
      env.front_run tx = .ok true) ∧
    (∀ (env : AdvancedEnv) (tx : Tx),
      (AdvancedFrontRunStrategy.execute env tx).1 = .ok true →
      (AdvancedFrontRunStrategy.execute env tx).2.countP AdCall.isFrontRun = 1 ∧
      env.front_run tx = .ok true) :=
  ⟨aggressive_true_dispatch, predictive_true_dispatch, volatility_true_dispatch,
    advanced_true_dispatch⟩

/-- C9 witness: the statement applied at concrete wirings whose evaluation
returns `true`. -/
theorem true_result_certifies_dispatch_witness :
    ((AggressiveFrontRunStrategy.execute aggOkEnv tx0).2.countP ACall.isFrontRun = 1 ∧
      aggOkEnv.front_run tx0 = .ok true) ∧
    ((PredictiveFrontRunStrategy.execute predScenarioC tx0).2.countP PCall.isFrontRun = 1 ∧
      predScenarioC.front_run tx0 = .ok true) ∧
    ((VolatilityFrontRunStrategy.execute volOkEnv tx0).2.countP VCall.isFrontRun = 1 ∧
      volOkEnv.front_run tx0 = .ok true) ∧
    ((AdvancedFrontRunStrategy.execute advNoLiqEnv tx0).2.countP AdCall.isFrontRun = 1 ∧
      advNoLiqEnv.front_run tx0 = .ok true) := by
  refine ⟨?_, ?_, ?_, ?_⟩
  · exact true_result_certifies_dispatch.1 aggOkEnv tx0 (by decide)
  · exact true_result_certifies_dispatch.2.1 predScenarioC tx0 (by rfl)
  · exact true_result_certifies_dispatch.2.2.1 volOkEnv tx0 (by decide)
  · exact true_result_certifies_dispatch.2.2.2 advNoLiqEnv tx0 (by decide)

/-- C10: the division by the fetched current price is unguarded in the
predictive and advanced variants: with validation succeeding, all fetchers
succeeding and a current price of 0 (non-null), `execute` raises
`ZeroDivisionError` instead of returning a boolean, with the executor never
invoked. -/
theorem unguarded_zero_price_division :
    (PredictiveFrontRunStrategy.execute predZeroEnv tx0).1 = .error .zeroDivisionError ∧
    (PredictiveFrontRunStrategy.execute predZeroEnv tx0).2.countP PCall.isFrontRun = 0 ∧
    (AdvancedFrontRunStrategy.execute advZeroEnv tx0).1 = .error .zeroDivisionError ∧
    (AdvancedFrontRunStrategy.execute advZeroEnv tx0).2.countP AdCall.isFrontRun = 0 := by
  exact ⟨by rfl, by rfl, by decide, by decide⟩

end DexFrontRun
